import Mathlib

/-!
Verification development for a small authenticated note-taking backend
(`src/app.py`): Flask HTTP handlers over a PostgreSQL store.

The relational store is embedded as explicit state (`DB`): the `users` and
`notes` tables are lists of rows, and the SERIAL id counters are carried
explicitly.  Each HTTP handler becomes a pure function from the state, the
resolved session (`Option Nat`, the `user_id` held in the signed cookie, or
`none` when no valid session is present) and the parsed JSON body to a
response together with the successor state.  A JSON body is modelled as
`Option (List (String × String))`: `none` stands for a body that parsed to
`None`, and the association list models the dict with `List.lookup` as
subscripting.  Handlers that index the body without checking (and so can let
a Python exception escape) return `HResult`, which has a `raised` branch.
-/

namespace App

/-- Modelled from the spec: the Password Hasher (werkzeug's
`generate_password_hash` / `check_password_hash`) is an external library, not
part of the repository source.  The spec asks for a one-way salted hash with a
verifier that succeeds exactly on the hashed password; the blob is embedded as
the salt paired with the password it was derived from, and verification
compares the password. -/
structure HashBlob where
  salt : Nat
  pw : String
deriving DecidableEq, Repr

/-- Modelled from the spec: `hash(password) -> HashBlob`, with a per-call salt
supplied explicitly. -/
def generate_password_hash (salt : Nat) (password : String) : HashBlob :=
  ⟨salt, password⟩

/-- Modelled from the spec: `verify(hashBlob, password) -> bool`, true exactly
when the password matches the one the blob was derived from. -/
def check_password_hash (blob : HashBlob) (password : String) : Bool :=
  blob.pw == password

/-- A row of the `users` table (src/app.py lines 37-42, schema lines 303-310). -/
structure User where
  id : Nat
  username : String
  email : String
  password_hash : HashBlob
deriving DecidableEq, Repr

/-- A row of the `notes` table (src/app.py lines 45-50, schema lines 312-319). -/
structure Note where
  id : Nat
  title : String
  content : String
  user_id : Nat
deriving DecidableEq, Repr

/-- The relational store: both tables plus the next value of each SERIAL
primary-key sequence (PostgreSQL SERIAL starts at 1). -/
structure DB where
  users : List User
  notes : List Note
  nextUserId : Nat
  nextNoteId : Nat
deriving DecidableEq, Repr

/-- The empty store right after `init_db`. -/
def emptyDB : DB := ⟨[], [], 1, 1⟩

/-- JSON response bodies produced by the handlers. -/
inductive Body where
  | msg : String → Body
  | err : String → Body
  | note : Nat → String → String → Body
  | noteList : List (Nat × String × String) → Body
deriving DecidableEq, Repr

/-- An HTTP response: status code and JSON body.  Flask's `jsonify` without an
explicit code means 200. -/
structure Response where
  status : Nat
  body : Body
deriving DecidableEq, Repr

/-- Outcome of a handler that may let a Python exception escape: either a
response or an uncaught exception (named by its Python class). -/
inductive HResult where
  | resp : Response → HResult
  | raised : String → HResult
deriving DecidableEq, Repr

/-- A JSON body: `none` when `request.get_json()` produced `None`, otherwise
the dict as an association list. -/
abbrev JsonBody := Option (List (String × String))

/-- `register` (src/app.py lines 55-94).  Rejects a falsy body or a body
missing any of `username`, `email`, `password` with 400; otherwise hashes the
password, rejects an existing email-or-username match with 400, else inserts
the new user row and commits.  The per-call salt of the hasher is an explicit
argument. -/
def register (db : DB) (data : JsonBody) (salt : Nat) : Response × DB :=
  match data with
  | none => (⟨400, Body.err "Invalid input"⟩, db)
  | some d =>
    if d.isEmpty || !((d.lookup "username").isSome && (d.lookup "email").isSome
        && (d.lookup "password").isSome) then
      (⟨400, Body.err "Invalid input"⟩, db)
    else
      let username := (d.lookup "username").getD ""
      let email := (d.lookup "email").getD ""
      let password := (d.lookup "password").getD ""
      let password_hash := generate_password_hash salt password
      if (db.users.find? (fun u => u.email == email || u.username == username)).isSome then
        (⟨400, Body.err "User already exists"⟩, db)
      else
        let user : User := ⟨db.nextUserId, username, email, password_hash⟩
        (⟨201, Body.msg "registered"⟩,
          { db with users := db.users ++ [user], nextUserId := db.nextUserId + 1 })

/-- `login` (src/app.py lines 97-125).  Rejects a falsy body or missing
`email`/`password` with 400.  Looks up the user row by email (unique in the
schema); a missing row or a failed hash check both produce the same 401 body.
The second component is the session established: `some id` exactly when the
handler set `session["user_id"]`. -/
def login (db : DB) (data : JsonBody) : Response × Option Nat :=
  match data with
  | none => (⟨400, Body.err "Invalid input"⟩, none)
  | some d =>
    if d.isEmpty || (d.lookup "email").isNone || (d.lookup "password").isNone then
      (⟨400, Body.err "Invalid input"⟩, none)
    else
      let email := (d.lookup "email").getD ""
      let password := (d.lookup "password").getD ""
      match db.users.find? (fun u => u.email == email) with
      | none => (⟨401, Body.err "Invalid credentials"⟩, none)
      | some u =>
        if check_password_hash u.password_hash password then
          (⟨200, Body.msg "logged in"⟩, some u.id)
        else
          (⟨401, Body.err "Invalid credentials"⟩, none)

/-- `create_note` (src/app.py lines 136-160).  401 without a session;
otherwise subscripts the body directly — `data["title"]` on a `None` body
raises `TypeError`, a missing key raises `KeyError`, and there is no
validation branch.  On success inserts the note row and commits (201). -/
def create_note (db : DB) (sess : Option Nat) (data : JsonBody) : HResult × DB :=
  match sess with
  | none => (HResult.resp ⟨401, Body.err "Unauthorized"⟩, db)
  | some uid =>
    match data with
    | none => (HResult.raised "TypeError", db)
    | some d =>
      match d.lookup "title", d.lookup "content" with
      | some t, some c =>
        let note : Note := ⟨db.nextNoteId, t, c, uid⟩
        (HResult.resp ⟨201, Body.msg "note created"⟩,
          { db with notes := db.notes ++ [note], nextNoteId := db.nextNoteId + 1 })
      | _, _ => (HResult.raised "KeyError", db)

/-- The relation `ORDER BY id DESC` sorts by. -/
def noteGe (a b : Note) : Prop := b.id ≤ a.id

instance : DecidableRel noteGe := fun a b => Nat.decLe b.id a.id

instance : IsTotal Note noteGe := ⟨fun a b => Nat.le_total b.id a.id⟩

instance : IsTrans Note noteGe := ⟨fun _ _ _ h1 h2 => Nat.le_trans h2 h1⟩

/-- The row set of `SELECT ... FROM notes WHERE user_id = uid ORDER BY id DESC`
(src/app.py lines 172-180). -/
def listedNotes (db : DB) (uid : Nat) : List Note :=
  List.insertionSort noteGe (db.notes.filter (fun n => n.user_id == uid))

/-- `get_notes` (src/app.py lines 163-197).  With no session, returns 200 with
an empty list (not 401); otherwise returns the caller's notes ordered by id
descending, projected to id/title/content. -/
def get_notes (db : DB) (sess : Option Nat) : Response :=
  match sess with
  | none => ⟨200, Body.noteList []⟩
  | some uid =>
    ⟨200, Body.noteList ((listedNotes db uid).map (fun n => (n.id, n.title, n.content)))⟩

/-- `update_note` (src/app.py lines 200-229).  401 without a session; the body
is subscripted without validation (as in `create_note`); the UPDATE filters by
`id = note_id AND user_id = session user` and RETURNING decides the 404
branch.  On the 404 branch nothing was committed and no row had matched, so
the state is unchanged. -/
def update_note (db : DB) (sess : Option Nat) (note_id : Nat) (data : JsonBody) :
    HResult × DB :=
  match sess with
  | none => (HResult.resp ⟨401, Body.err "Unauthorized"⟩, db)
  | some uid =>
    match data with
    | none => (HResult.raised "TypeError", db)
    | some d =>
      match d.lookup "title", d.lookup "content" with
      | some t, some c =>
        if db.notes.any (fun n => n.id == note_id && n.user_id == uid) then
          (HResult.resp ⟨200, Body.msg "updated"⟩,
            { db with notes := db.notes.map (fun n =>
                if n.id == note_id && n.user_id == uid then
                  { n with title := t, content := c }
                else n) })
        else
          (HResult.resp ⟨404, Body.err "Not found"⟩, db)
      | _, _ => (HResult.raised "KeyError", db)

/-- `delete_note` (src/app.py lines 232-258).  401 without a session; the
DELETE filters by `id = note_id AND user_id = session user`, RETURNING decides
the 404 branch. -/
def delete_note (db : DB) (sess : Option Nat) (note_id : Nat) : Response × DB :=
  match sess with
  | none => (⟨401, Body.err "Unauthorized"⟩, db)
  | some uid =>
    if db.notes.any (fun n => n.id == note_id && n.user_id == uid) then
      (⟨200, Body.msg "deleted"⟩,
        { db with notes := db.notes.filter (fun n =>
            !(n.id == note_id && n.user_id == uid)) })
    else
      (⟨404, Body.err "Not found"⟩, db)

/-- `get_single_note` (src/app.py lines 260-291).  401 without a session; the
SELECT filters by `id = note_id AND user_id = session user`; an empty result is
404, with no distinction between a nonexistent id and someone else's note. -/
def get_single_note (db : DB) (sess : Option Nat) (note_id : Nat) : Response :=
  match sess with
  | none => ⟨401, Body.err "Unauthorized"⟩
  | some uid =>
    match db.notes.find? (fun n => n.id == note_id && n.user_id == uid) with
    | none => ⟨404, Body.err "Not found"⟩
    | some n => ⟨200, Body.note n.id n.title n.content⟩

/-- Resource outcome of one handler invocation: whether the database
connection it opened was closed before the handler returned, and whether an
exception escaped the handler unhandled. -/
structure ConnOutcome where
  connReleased : Bool
  exceptionEscaped : Bool
deriving DecidableEq, Repr

/-- Connection/exception control flow of `register` (src/app.py lines 55-94):
`try/except/finally`, so the cursor and connection are closed on every path
and a backend exception is caught and translated to a 500 response. -/
def register_conn (dbFault : Bool) : ConnOutcome :=
  if dbFault then ⟨true, false⟩ else ⟨true, false⟩

/-- Connection/exception control flow of `create_note` (src/app.py lines
136-160): `try/finally` with no `except`, so the connection is closed on every
path but a fault raised inside the block propagates out of the handler. -/
def create_note_conn (dbFault : Bool) : ConnOutcome :=
  if dbFault then ⟨true, true⟩ else ⟨true, false⟩

/-- Connection/exception control flow of `list_tables` (src/app.py lines
327-339): there is no `try/finally` at all, so a fault in `cur.execute` skips
both `cur.close()` and `conn.close()` and propagates out of the handler: the
connection leaks. -/
def list_tables_conn (dbFault : Bool) : ConnOutcome :=
  if dbFault then ⟨false, true⟩ else ⟨true, false⟩

/-! Concrete states for witnesses: the users and notes emerge from the
handlers themselves where the scenario calls for it. -/

/-- A registered user, as the spec's concrete scenario registers alice. -/
def alice : User := ⟨1, "alice", "a@x.com", generate_password_hash 0 "pw1"⟩

/-- A second registered user. -/
def bob : User := ⟨2, "bob", "b@x.com", generate_password_hash 1 "pw2"⟩

/-- Store holding just alice. -/
def dbAlice : DB := ⟨[alice], [], 2, 1⟩

/-- Store after alice creates note A. -/
def dbA : DB := (create_note dbAlice (some 1) (some [("title", "A"), ("content", "a")])).2

/-- Store after alice creates note A and then note B. -/
def dbAB : DB := (create_note dbA (some 1) (some [("title", "B"), ("content", "b")])).2

/-- Store with two users: notes 1 and 2 belong to alice, note 3 to bob. -/
def dbTwo : DB :=
  ⟨[alice, bob], [⟨1, "A", "a", 1⟩, ⟨2, "B", "b", 1⟩, ⟨3, "C", "c", 2⟩], 3, 4⟩

/-! Helper lemmas shared by the claim theorems. -/

theorem isEmpty_eq_false_of_lookup {d : List (String × String)} {k v : String}
    (h : d.lookup k = some v) : d.isEmpty = false := by
  cases d with
  | nil => simp [List.lookup] at h
  | cons a l => rfl

theorem any_match_eq_false {l : List Note} {nid caller : Nat}
    (h : ∀ m ∈ l, m.id = nid → m.user_id ≠ caller) :
    l.any (fun n => n.id == nid && n.user_id == caller) = false := by
  rw [List.any_eq_false]
  intro m hm
  simp only [Bool.and_eq_true, beq_iff_eq, not_and]
  exact fun hid => h m hm hid

/-- Claim C1: a PUT or DELETE on a note id that exists but belongs to a user
other than the caller answers 404 with the "Not found" body and returns the
store unchanged — in particular the target note keeps its title, content and
owner — because both statements filter by note id and caller id. -/
theorem c1_cross_owner_mutation_not_found (db : DB) (owner caller nid : Nat)
    (d : List (String × String)) (t c : String) (n : Note)
    (hmem : n ∈ db.notes) (hid : n.id = nid) (hown : n.user_id = owner)
    (hne : caller ≠ owner)
    (huniq : ∀ m ∈ db.notes, m.id = nid → m.user_id = owner)
    (ht : d.lookup "title" = some t) (hc : d.lookup "content" = some c) :
    update_note db (some caller) nid (some d)
        = (HResult.resp ⟨404, Body.err "Not found"⟩, db) ∧
      delete_note db (some caller) nid = (⟨404, Body.err "Not found"⟩, db) := by
  have hfalse : db.notes.any (fun m => m.id == nid && m.user_id == caller) = false :=
    any_match_eq_false (fun m hm hmid => by rw [huniq m hm hmid]; exact Ne.symm hne)
  refine ⟨?_, ?_⟩
  · simp [update_note, ht, hc, hfalse]
  · simp [delete_note, hfalse]

/-- Witness for C1: in `dbTwo`, note 1 belongs to alice (user 1); bob (user 2)
updating or deleting it gets 404 and the store is untouched. -/
theorem c1_witness :
    ((⟨1, "A", "a", 1⟩ : Note) ∈ dbTwo.notes ∧ (2 : Nat) ≠ 1 ∧
        (∀ m ∈ dbTwo.notes, m.id = 1 → m.user_id = 1)) ∧
      update_note dbTwo (some 2) 1 (some [("title", "X"), ("content", "y")])
          = (HResult.resp ⟨404, Body.err "Not found"⟩, dbTwo) ∧
      delete_note dbTwo (some 2) 1 = (⟨404, Body.err "Not found"⟩, dbTwo) :=
  ⟨⟨by decide, by decide, by decide⟩,
    c1_cross_owner_mutation_not_found dbTwo 1 2 1
      [("title", "X"), ("content", "y")] "X" "y" ⟨1, "A", "a", 1⟩
      (by decide) rfl rfl (by decide) (by decide) rfl rfl⟩

/-- Claim C3: with no valid session, GET /notes answers 200 with an empty
list, while every other protected note operation answers 401 Unauthorized. -/
theorem c3_anonymous_list_empty (db : DB) (nid : Nat) (data : JsonBody) :
    get_notes db none = ⟨200, Body.noteList []⟩ ∧
      create_note db none data = (HResult.resp ⟨401, Body.err "Unauthorized"⟩, db) ∧
      get_single_note db none nid = ⟨401, Body.err "Unauthorized"⟩ ∧
      update_note db none nid data = (HResult.resp ⟨401, Body.err "Unauthorized"⟩, db) ∧
      delete_note db none nid = (⟨401, Body.err "Unauthorized"⟩, db) :=
  ⟨rfl, rfl, rfl, rfl, rfl⟩

/-- Claim C8: POST /register with a body missing any of username, email,
password answers 400 with the "Invalid input" body and the store — in
particular the users table — is unchanged. -/
theorem c8_register_missing_field (db : DB) (data : JsonBody) (salt : Nat)
    (hmiss : data = none ∨ ∃ d, data = some d ∧
      ((d.lookup "username").isNone ∨ (d.lookup "email").isNone ∨
        (d.lookup "password").isNone)) :
    register db data salt = (⟨400, Body.err "Invalid input"⟩, db) := by
  rcases hmiss with h | ⟨d, rfl, h⟩
  · subst h; rfl
  · have hkeys : ((d.lookup "username").isSome && (d.lookup "email").isSome
        && (d.lookup "password").isSome) = false := by
      rcases h with h | h | h <;>
        simp only [Option.isNone_iff_eq_none] at h <;> simp [h]
    simp [register, hkeys]

/-- Witness for C8: registering with a body lacking the password field fails
with 400 and leaves the empty store empty. -/
theorem c8_witness :
    ((some [("username", "alice"), ("email", "a@x.com")] : JsonBody) = none ∨
      ∃ d, (some [("username", "alice"), ("email", "a@x.com")] : JsonBody) = some d ∧
        ((d.lookup "username").isNone ∨ (d.lookup "email").isNone ∨
          (d.lookup "password").isNone)) ∧
      register emptyDB (some [("username", "alice"), ("email", "a@x.com")]) 0
        = (⟨400, Body.err "Invalid input"⟩, emptyDB) :=
  ⟨Or.inr ⟨_, rfl, Or.inr (Or.inr (by decide))⟩,
    c8_register_missing_field emptyDB _ 0 (Or.inr ⟨_, rfl, Or.inr (Or.inr (by decide))⟩)⟩

/-- Claim C9 (code evaluated at the failing input): when the database call
faults, `list_tables` neither releases its connection nor handles the
exception — it has no try/finally — whereas `create_note` does release its
connection, though the fault still escapes it; only `register` both releases
and handles.  This refutes "every handler releases on every exit path and
never lets a backend exception escape". -/
theorem c9_list_tables_leaks_connection :
    (list_tables_conn true).connReleased = false ∧
      (list_tables_conn true).exceptionEscaped = true ∧
      (create_note_conn true).connReleased = true ∧
      (create_note_conn true).exceptionEscaped = true ∧
      (register_conn true).connReleased = true ∧
      (register_conn true).exceptionEscaped = false := by
  decide

theorem get_single_note_eq_404_iff (db : DB) (uid m : Nat) :
    get_single_note db (some uid) m = ⟨404, Body.err "Not found"⟩ ↔
      ∀ n ∈ db.notes, ¬(n.id = m ∧ n.user_id = uid) := by
  have hfind : db.notes.find? (fun n => n.id == m && n.user_id == uid) = none ↔
      ∀ n ∈ db.notes, ¬(n.id = m ∧ n.user_id = uid) := by
    rw [List.find?_eq_none]
    simp only [Bool.and_eq_true, beq_iff_eq]
  rw [← hfind]
  cases hf : db.notes.find? (fun n => n.id == m && n.user_id == uid) with
  | none => simp [get_single_note, hf]
  | some k => simp [get_single_note, hf]

/-- Claim C2: for an authenticated GET of a single note, the response is the
404 "Not found" body exactly when no note with that id belongs to the caller;
and the response for an id that exists nowhere equals the response for an id
whose note belongs to another user — no observable distinction. -/
theorem c2_get_single_not_found (db : DB) (uid nid nid2 : Nat)
    (h1 : ∀ n ∈ db.notes, n.id ≠ nid)
    (h2 : ∀ n ∈ db.notes, n.id = nid2 → n.user_id ≠ uid) :
    (∀ m : Nat, get_single_note db (some uid) m = ⟨404, Body.err "Not found"⟩ ↔
        ∀ n ∈ db.notes, ¬(n.id = m ∧ n.user_id = uid)) ∧
      get_single_note db (some uid) nid = get_single_note db (some uid) nid2 := by
  refine ⟨fun m => get_single_note_eq_404_iff db uid m, ?_⟩
  have e1 : get_single_note db (some uid) nid = ⟨404, Body.err "Not found"⟩ :=
    (get_single_note_eq_404_iff db uid nid).mpr
      (fun n hn hand => h1 n hn hand.1)
  have e2 : get_single_note db (some uid) nid2 = ⟨404, Body.err "Not found"⟩ :=
    (get_single_note_eq_404_iff db uid nid2).mpr
      (fun n hn hand => h2 n hn hand.1 hand.2)
  rw [e1, e2]

/-- Witness for C2: in `dbTwo`, id 9 exists nowhere and id 3 belongs to bob;
alice's GETs of both are the same 404 response. -/
theorem c2_witness :
    ((∀ n ∈ dbTwo.notes, n.id ≠ 9) ∧ (∀ n ∈ dbTwo.notes, n.id = 3 → n.user_id ≠ 1)) ∧
      (∀ m : Nat, get_single_note dbTwo (some 1) m = ⟨404, Body.err "Not found"⟩ ↔
        ∀ n ∈ dbTwo.notes, ¬(n.id = m ∧ n.user_id = 1)) ∧
      get_single_note dbTwo (some 1) 9 = get_single_note dbTwo (some 1) 3 :=
  ⟨⟨by decide, by decide⟩,
    c2_get_single_not_found dbTwo 1 9 3 (by decide) (by decide)⟩

/-- Claim C4: a login whose email matches no user and a login whose password
fails verification produce the identical 401 "Invalid credentials" response
with no session established; and for a stored hash of password `pw`,
login succeeds exactly when the supplied password equals `pw`. -/
theorem c4_login_failure_indistinguishable (db : DB) (d : List (String × String))
    (e p pw : String) (s : Nat) (u : User)
    (he : d.lookup "email" = some e) (hp : d.lookup "password" = some p) :
    (db.users.find? (fun v => v.email == e) = none →
        login db (some d) = (⟨401, Body.err "Invalid credentials"⟩, none)) ∧
      (db.users.find? (fun v => v.email == e) = some u →
        u.password_hash = generate_password_hash s pw →
        ((login db (some d) = (⟨200, Body.msg "logged in"⟩, some u.id) ↔ p = pw) ∧
          (p ≠ pw →
            login db (some d) = (⟨401, Body.err "Invalid credentials"⟩, none)))) := by
  have hne : d.isEmpty = false := isEmpty_eq_false_of_lookup he
  refine ⟨?_, ?_⟩
  · intro hf
    simp [login, hne, he, hp, hf]
  · intro hf hhash
    have hfail : p ≠ pw →
        login db (some d) = (⟨401, Body.err "Invalid credentials"⟩, none) := by
      intro hppw
      have hb : (pw == p) = false := beq_eq_false_iff_ne.mpr (fun h => hppw h.symm)
      simp [login, hne, he, hp, hf, check_password_hash, hhash,
        generate_password_hash, hb]
    refine ⟨⟨?_, ?_⟩, hfail⟩
    · intro hl
      by_contra hppw
      rw [hfail hppw] at hl
      simp at hl
    · intro hppw
      subst hppw
      simp [login, hne, he, hp, hf, check_password_hash, hhash, generate_password_hash]

/-- Witness for C4: against `dbTwo` (alice's stored hash derives from "pw1"),
logging in as alice with "pw1" succeeds, with the wrong password "pw2" gives
the 401 response, and a login under an unknown email gives the very same
401 response. -/
theorem c4_witness :
    (([("email", "a@x.com"), ("password", "pw2")] :
        List (String × String)).lookup "email" = some "a@x.com" ∧
      dbTwo.users.find? (fun v => v.email == "a@x.com") = some alice ∧
      alice.password_hash = generate_password_hash 0 "pw1") ∧
      login dbTwo (some [("email", "a@x.com"), ("password", "pw2")])
        = (⟨401, Body.err "Invalid credentials"⟩, none) ∧
      login dbTwo (some [("email", "a@x.com"), ("password", "pw1")])
        = (⟨200, Body.msg "logged in"⟩, some 1) ∧
      login dbTwo (some [("email", "zz@x.com"), ("password", "pw1")])
        = (⟨401, Body.err "Invalid credentials"⟩, none) :=
  ⟨⟨by decide, by decide, rfl⟩,
    ((c4_login_failure_indistinguishable dbTwo
        [("email", "a@x.com"), ("password", "pw2")] "a@x.com" "pw2" "pw1" 0 alice
        rfl rfl).2 (by decide) rfl).2 (by decide),
    ((c4_login_failure_indistinguishable dbTwo
        [("email", "a@x.com"), ("password", "pw1")] "a@x.com" "pw1" "pw1" 0 alice
        rfl rfl).2 (by decide) rfl).1.mpr rfl,
    (c4_login_failure_indistinguishable dbTwo
        [("email", "zz@x.com"), ("password", "pw1")] "zz@x.com" "pw1" "pw1" 0 alice
        rfl rfl).1 (by decide)⟩

/-- Claim C5: a first registration of (username, email) against a store with
neither taken succeeds with 201, after it exactly one stored user carries that
email or username, and a second registration reusing the email (or the
username) answers 400 "User already exists" and leaves the store unchanged. -/
theorem c5_duplicate_registration (db : DB) (d d2 : List (String × String))
    (un e p un2 e2 p2 : String) (s s2 : Nat)
    (hun : d.lookup "username" = some un) (he : d.lookup "email" = some e)
    (hp : d.lookup "password" = some p)
    (hun2 : d2.lookup "username" = some un2) (he2 : d2.lookup "email" = some e2)
    (hp2 : d2.lookup "password" = some p2)
    (hdup : e2 = e ∨ un2 = un)
    (hfresh : ∀ u ∈ db.users, u.email ≠ e ∧ u.username ≠ un) :
    (register db (some d) s).1 = ⟨201, Body.msg "registered"⟩ ∧
      ((register db (some d) s).2.users.filter
          (fun u => u.email == e || u.username == un)).length = 1 ∧
      register (register db (some d) s).2 (some d2) s2
        = (⟨400, Body.err "User already exists"⟩, (register db (some d) s).2) := by
  have hne : d.isEmpty = false := isEmpty_eq_false_of_lookup hun
  have hne2 : d2.isEmpty = false := isEmpty_eq_false_of_lookup hun2
  have hfind : db.users.find? (fun u => u.email == e || u.username == un) = none := by
    rw [List.find?_eq_none]
    intro u hu
    simp only [Bool.or_eq_true, beq_iff_eq, not_or]
    exact ⟨(hfresh u hu).1, (hfresh u hu).2⟩
  have hreg : register db (some d) s = (⟨201, Body.msg "registered"⟩,
      { db with
        users := db.users ++ [⟨db.nextUserId, un, e, generate_password_hash s p⟩]
        nextUserId := db.nextUserId + 1 }) := by
    simp [register, hne, hun, he, hp, hfind]
  have hflt : db.users.filter (fun u => u.email == e || u.username == un) = [] := by
    rw [List.filter_eq_nil_iff]
    intro u hu
    simp only [Bool.or_eq_true, beq_iff_eq, not_or]
    exact ⟨(hfresh u hu).1, (hfresh u hu).2⟩
  refine ⟨by rw [hreg], ?_, ?_⟩
  · rw [hreg]
    simp [List.filter_append, hflt]
  · rw [hreg]
    have hmatch : ((db.users ++ [(⟨db.nextUserId, un, e, generate_password_hash s p⟩ : User)]).find?
        (fun u => u.email == e2 || u.username == un2)).isSome = true := by
      rw [List.find?_isSome]
      refine ⟨(⟨db.nextUserId, un, e, generate_password_hash s p⟩ : User), by simp, ?_⟩
      rcases hdup with h | h <;> simp [h]
    simp [register, hne2, hun2, he2, hp2, hmatch, -List.find?_isSome]
    intro _ hne3
    rcases hdup with h | h
    · exact absurd h.symm hne3
    · exact h.symm

/-- Witness for C5: registering alice against the empty store succeeds and a
second registration with the same email is rejected, leaving one user. -/
theorem c5_witness :
    ((("a2@x.com" : String) = "a@x.com" ∨ ("alice" : String) = "alice") ∧
        (∀ u ∈ emptyDB.users, u.email ≠ "a@x.com" ∧ u.username ≠ "alice")) ∧
      (register emptyDB
          (some [("username", "alice"), ("email", "a@x.com"), ("password", "pw1")]) 0).1
        = ⟨201, Body.msg "registered"⟩ ∧
      ((register emptyDB
          (some [("username", "alice"), ("email", "a@x.com"), ("password", "pw1")]) 0).2.users.filter
          (fun u => u.email == "a@x.com" || u.username == "alice")).length = 1 ∧
      register (register emptyDB
          (some [("username", "alice"), ("email", "a@x.com"), ("password", "pw1")]) 0).2
          (some [("username", "alice"), ("email", "a2@x.com"), ("password", "pw9")]) 1
        = (⟨400, Body.err "User already exists"⟩,
            (register emptyDB
              (some [("username", "alice"), ("email", "a@x.com"), ("password", "pw1")]) 0).2) :=
  ⟨⟨Or.inr rfl, by decide⟩,
    c5_duplicate_registration emptyDB
      [("username", "alice"), ("email", "a@x.com"), ("password", "pw1")]
      [("username", "alice"), ("email", "a2@x.com"), ("password", "pw9")]
      "alice" "a@x.com" "pw1" "alice" "a2@x.com" "pw9" 0 1
      rfl rfl rfl rfl rfl rfl (Or.inr rfl) (by decide)⟩

/-- Claim C7: for a note the caller owns, DELETE succeeds with the 200
"deleted" body, and a subsequent GET of the same (owner, id) pair against the
resulting store answers 404 "Not found". -/
theorem c7_delete_then_get (db : DB) (uid nid : Nat)
    (hex : ∃ n ∈ db.notes, n.id = nid ∧ n.user_id = uid) :
    (delete_note db (some uid) nid).1 = ⟨200, Body.msg "deleted"⟩ ∧
      get_single_note (delete_note db (some uid) nid).2 (some uid) nid
        = ⟨404, Body.err "Not found"⟩ := by
  obtain ⟨n, hn, hid, hown⟩ := hex
  have hany : db.notes.any (fun m => m.id == nid && m.user_id == uid) = true := by
    rw [List.any_eq_true]
    exact ⟨n, hn, by simp [hid, hown]⟩
  have hdel : delete_note db (some uid) nid = (⟨200, Body.msg "deleted"⟩,
      { db with notes := db.notes.filter (fun m => !(m.id == nid && m.user_id == uid)) }) := by
    simp [delete_note, hany]
  refine ⟨by rw [hdel], ?_⟩
  rw [hdel]
  have hnone : (db.notes.filter (fun m => !(m.id == nid && m.user_id == uid))).find?
      (fun m => m.id == nid && m.user_id == uid) = none := by
    rw [List.find?_eq_none]
    intro x hx
    have hpx := (List.mem_filter.mp hx).2
    simp only [Bool.not_eq_eq_eq_not, Bool.not_true] at hpx
    simp [hpx]
  simp only [get_single_note, hnone]

/-- Witness for C7: alice deletes her note 2 in `dbTwo`; the delete answers
200 and re-getting note 2 answers 404. -/
theorem c7_witness :
    (∃ n ∈ dbTwo.notes, n.id = 2 ∧ n.user_id = 1) ∧
      (delete_note dbTwo (some 1) 2).1 = ⟨200, Body.msg "deleted"⟩ ∧
      get_single_note (delete_note dbTwo (some 1) 2).2 (some 1) 2
        = ⟨404, Body.err "Not found"⟩ :=
  ⟨⟨⟨2, "B", "b", 1⟩, by decide, rfl, rfl⟩,
    c7_delete_then_get dbTwo 1 2 ⟨⟨2, "B", "b", 1⟩, by decide, rfl, rfl⟩⟩

/-- Claim C10: with a valid session, `create_note` does no input validation:
a body that is None or lacks title or content makes the handler raise (the
state unchanged) instead of answering; and no response `create_note` ever
produces has status 400 — its only statuses are 401 and 201. -/
theorem c10_create_note_no_validation (db : DB) (uid : Nat) (data : JsonBody)
    (hmiss : data = none ∨ ∃ d, data = some d ∧
      ((d.lookup "title").isNone ∨ (d.lookup "content").isNone)) :
    (∃ x, create_note db (some uid) data = (HResult.raised x, db)) ∧
      (∀ (db2 : DB) (sess : Option Nat) (data2 : JsonBody) (r : Response),
        (create_note db2 sess data2).1 = HResult.resp r →
        r.status = 401 ∨ r.status = 201) := by
  refine ⟨?_, ?_⟩
  · rcases hmiss with h | ⟨d, rfl, h⟩
    · exact ⟨"TypeError", by subst h; rfl⟩
    · refine ⟨"KeyError", ?_⟩
      rcases h with h | h <;> rw [Option.isNone_iff_eq_none] at h
      · cases hc : d.lookup "content" <;> simp [create_note, h, hc]
      · cases ht : d.lookup "title" <;> simp [create_note, h, ht]
  · intro db2 sess data2 r hr
    cases sess with
    | none =>
      simp only [create_note] at hr
      cases hr
      exact Or.inl rfl
    | some uid2 =>
      cases data2 with
      | none => simp [create_note] at hr
      | some d2 =>
        cases ht : d2.lookup "title" with
        | none => simp [create_note, ht] at hr
        | some t =>
          cases hc : d2.lookup "content" with
          | none => simp [create_note, ht, hc] at hr
          | some c =>
            simp only [create_note, ht, hc] at hr
            cases hr
            exact Or.inr rfl

/-- Witness for C10: with alice's session, a body holding only content makes
`create_note` raise and leaves the store unchanged. -/
theorem c10_witness :
    ((some [("content", "c")] : JsonBody) = none ∨
      ∃ d, (some [("content", "c")] : JsonBody) = some d ∧
        ((d.lookup "title").isNone ∨ (d.lookup "content").isNone)) ∧
      (∃ x, create_note dbAlice (some 1) (some [("content", "c")])
        = (HResult.raised x, dbAlice)) :=
  ⟨Or.inr ⟨_, rfl, Or.inl (by decide)⟩,
    (c10_create_note_no_validation dbAlice 1 (some [("content", "c")])
      (Or.inr ⟨_, rfl, Or.inl (by decide)⟩)).1⟩

/-- Claim C6: with distinct note ids (the SERIAL primary key), GET /notes for
an owner answers 200 with exactly that owner's notes — a permutation of the
owner-filtered table, every listed note owned by the caller — in strictly
descending id order; an owner with no notes gets the empty list; and
concretely, after alice creates note A and then note B, her listing is
[B, A]. -/
theorem c6_list_by_owner (db : DB) (uid : Nat)
    (hnodup : (db.notes.map Note.id).Nodup) :
    get_notes db (some uid)
        = ⟨200, Body.noteList
            ((listedNotes db uid).map (fun n => (n.id, n.title, n.content)))⟩ ∧
      (∀ n ∈ listedNotes db uid, n.user_id = uid) ∧
      (listedNotes db uid).Perm (db.notes.filter (fun n => n.user_id == uid)) ∧
      List.Pairwise (fun a b => b.id < a.id) (listedNotes db uid) ∧
      ((∀ n ∈ db.notes, n.user_id ≠ uid) → listedNotes db uid = []) ∧
      get_notes dbAB (some 1) = ⟨200, Body.noteList [(2, "B", "b"), (1, "A", "a")]⟩ := by
  have hperm : (listedNotes db uid).Perm (db.notes.filter (fun n => n.user_id == uid)) :=
    List.perm_insertionSort noteGe _
  refine ⟨rfl, ?_, hperm, ?_, ?_, by decide⟩
  · intro n hn
    have hmem := hperm.mem_iff.mp hn
    have h2 := (List.mem_filter.mp hmem).2
    simpa using h2
  · have hsorted : List.Pairwise noteGe (listedNotes db uid) :=
      List.sorted_insertionSort noteGe _
    have hfsub : List.Sublist ((db.notes.filter (fun n => n.user_id == uid)).map Note.id)
        (db.notes.map Note.id) :=
      (List.filter_sublist db.notes).map Note.id
    have hfnodup : ((db.notes.filter (fun n => n.user_id == uid)).map Note.id).Nodup :=
      List.Nodup.sublist hfsub hnodup
    have hlnodup : ((listedNotes db uid).map Note.id).Nodup :=
      ((hperm.map Note.id).nodup_iff).mpr hfnodup
    have hneq : List.Pairwise (fun a b : Note => a.id ≠ b.id) (listedNotes db uid) :=
      List.pairwise_map.mp hlnodup
    exact (List.Pairwise.and hsorted hneq).imp
      (fun h => Nat.lt_of_le_of_ne h.1 (fun hh => h.2 hh.symm))
  · intro hnone
    have hflt : db.notes.filter (fun n => n.user_id == uid) = [] := by
      rw [List.filter_eq_nil_iff]
      intro n hn
      simpa using hnone n hn
    unfold listedNotes
    rw [hflt]
    rfl

/-- Witness for C6: applied to the store where alice created note A and then
note B; her listing is exactly [B, A]. -/
theorem c6_witness :
    (dbAB.notes.map Note.id).Nodup ∧
      get_notes dbAB (some 1)
        = ⟨200, Body.noteList
            ((listedNotes dbAB 1).map (fun n => (n.id, n.title, n.content)))⟩ ∧
      (∀ n ∈ listedNotes dbAB 1, n.user_id = 1) ∧
      List.Pairwise (fun a b => b.id < a.id) (listedNotes dbAB 1) ∧
      get_notes dbAB (some 1) = ⟨200, Body.noteList [(2, "B", "b"), (1, "A", "a")]⟩ :=
  ⟨by decide, (c6_list_by_owner dbAB 1 (by decide)).1,
    (c6_list_by_owner dbAB 1 (by decide)).2.1,
    (c6_list_by_owner dbAB 1 (by decide)).2.2.2.1,
    (c6_list_by_owner dbAB 1 (by decide)).2.2.2.2.2⟩

end App
